import Mathlib

/-!
# Kanbanboard delivery layer: task and category handlers

A shallow embedding of `app/delivery/task.go` and `app/delivery/category.go`.

* A handler is a function of the use case it was built with, the request
  context and the state of the use-case layer. It returns the final state, the
  use-case calls it made (in order, with their arguments) and the responses it
  wrote with `ctx.JSON` (in order).
* `int64` values are `Int`: the handlers compare and copy them and never do
  arithmetic on them.
* `getStatusCode` and `helper.ValidateStruct` are declared outside these two
  files. Every handler takes the status-code mapping as its first argument
  (`statusCode`); `getStatusCode` below is the mapping of the error taxonomy.
  `helper.ValidateStruct` checks the fields tagged `validate:"required"` in the
  handler-local payload types.
* `copier.Copy(&task, &dto)` copies every field of the DTO to the field of the
  same name of the entity, zero values included; it is written as a record
  update.
-/

set_option autoImplicit false

namespace Kanbanboard

/-! ## Domain -/

/-- Modelled from the spec: the errors of package `domain` are declared
outside the given sources. `ErrUnauthorized` is the sentinel
`domain.ErrUnauthorized` named in `task.go`; `ErrNotFound` and
`ErrInternalServerError` are the other kinds of the error taxonomy.
`BindError` is an error of `ctx.ShouldBindJSON`, `ValidationError` one of
`helper.ValidateStruct`, carrying the name of the failing field; `Other` is any
other error a use case returns. -/
inductive Error where
  | ErrUnauthorized
  | ErrNotFound
  | ErrInternalServerError
  | ValidationError (field : String)
  | BindError (msg : String)
  | Other (msg : String)
  deriving DecidableEq, Repr

/-- Modelled from the spec: the declaration of `domain.Task` is outside the
given sources. The fields are those of the data model, which are the ones
`task.go` reads and writes. Timestamps are integers. -/
structure Task where
  ID : Int
  Title : String
  Description : String
  Status : Bool
  UserID : Int
  CategoryID : Int
  CreatedAt : Int
  UpdatedAt : Int
  deriving DecidableEq, Repr

/-- Modelled from the spec: the declaration of `domain.Category` is outside
the given sources. The fields are those of the data model, which are the ones
`category.go` reads and writes (`Type_` is the Go field `Type`). -/
structure Category where
  ID : Int
  Type_ : String
  CreatedAt : Int
  UpdatedAt : Int
  deriving DecidableEq, Repr

/-- The Go zero value of `domain.Task` (`var task domain.Task`). -/
def Task.zero : Task :=
  { ID := 0, Title := "", Description := "", Status := false, UserID := 0,
    CategoryID := 0, CreatedAt := 0, UpdatedAt := 0 }

/-- The Go zero value of `domain.Category`. -/
def Category.zero : Category :=
  { ID := 0, Type_ := "", CreatedAt := 0, UpdatedAt := 0 }

/-! ## Request payloads (the handler-local DTO types) -/

/-- The payload `StoreCategory` of `CategoryHandler.StoreCategory`. -/
structure StoreCategory where
  Type_ : String
  deriving DecidableEq, Repr

/-- The payload `StoreTask` of `TaskHandler.StoreTask`. -/
structure StoreTask where
  Title : String
  Description : String
  CategoryID : Int
  deriving DecidableEq, Repr

/-- The payload `UpdateTask` of `TaskHandler.UpdateTask`. -/
structure UpdateTask where
  Title : String
  Description : String
  deriving DecidableEq, Repr

/-- The payload `UpdateStatusTask` of `TaskHandler.UpdateStatusTask`. -/
structure UpdateStatusTask where
  Status : Bool
  deriving DecidableEq, Repr

/-- The payload `UpdateCategoryTask` of `TaskHandler.UpdateCategoryTask`. -/
structure UpdateCategoryTask where
  CategoryID : Int
  deriving DecidableEq, Repr

/-- The fields of `StoreCategory` tagged `validate:"required"`, in declaration
order, each with whether it holds its zero value. -/
def StoreCategory.required (d : StoreCategory) : List (String × Bool) :=
  [("Type", d.Type_ == "")]

/-- The fields of `StoreTask` tagged `validate:"required"`. -/
def StoreTask.required (d : StoreTask) : List (String × Bool) :=
  [("Title", d.Title == ""), ("Description", d.Description == ""),
   ("CategoryID", d.CategoryID == 0)]

/-- The fields of `UpdateTask` tagged `validate:"required"`. -/
def UpdateTask.required (d : UpdateTask) : List (String × Bool) :=
  [("Title", d.Title == ""), ("Description", d.Description == "")]

/-- The fields of `UpdateStatusTask` tagged `validate:"required"`: the zero
value of a `bool` is `false`. -/
def UpdateStatusTask.required (d : UpdateStatusTask) : List (String × Bool) :=
  [("Status", d.Status == false)]

/-- The fields of `UpdateCategoryTask` tagged `validate:"required"`. -/
def UpdateCategoryTask.required (d : UpdateCategoryTask) : List (String × Bool) :=
  [("CategoryID", d.CategoryID == 0)]

/-- Modelled from the spec: `helper.ValidateStruct` is declared outside the
given sources. It is "a struct-validation helper returning a descriptive error
on the first failing required field", a required field failing when it is
"empty/zero-valued". The argument lists the required fields of the struct, each
with whether it is zero-valued. -/
def helper.ValidateStruct (fields : List (String × Bool)) : Option Error :=
  match fields.find? (fun f => f.2) with
  | some f => some (Error.ValidationError f.1)
  | none => none

/-- Modelled from the spec: `getStatusCode` is declared outside the given
sources. The error taxonomy gives "ValidationError → 400; Unauthorized →
401/403; NotFound → 404; internal/persistence error → 500;
default/unclassified → 500"; 401 is taken for Unauthorized. The taxonomy has no
entry for a nil error: `nilCode` stands for the code returned then. -/
def getStatusCode (nilCode : Nat) : Option Error → Nat
  | none => nilCode
  | some Error.ErrUnauthorized => 401
  | some Error.ErrNotFound => 404
  | some Error.ErrInternalServerError => 500
  | some (Error.ValidationError _) => 400
  | some (Error.BindError _) => 500
  | some (Error.Other _) => 500

/-! ## HTTP plumbing -/

/-- A scalar placed in a `gin.H`. `errorText e` is the string `e.Error()`. -/
inductive Value where
  | int (n : Int)
  | str (s : String)
  | bool (b : Bool)
  | time (t : Int)
  | errorText (e : Error)
  deriving DecidableEq, Repr

/-- A value of a `gin.H` entry: a scalar or a nested `gin.H` of scalars. -/
inductive JSON where
  | val (v : Value)
  | obj (fields : List (String × Value))
  deriving DecidableEq, Repr

/-- One `ctx.JSON(code, body)` call. -/
structure Response where
  code : Nat
  body : List (String × JSON)
  deriving DecidableEq, Repr

/-- The body `gin.H{"message": err.Error()}`. -/
def message (e : Error) : List (String × JSON) :=
  [("message", JSON.val (Value.errorText e))]

/-- What a handler reads from `*gin.Context`, for a payload type `α`:
`body` and `bindErr` are the struct and the error `ctx.ShouldBindJSON` leaves,
`param` is the integer `strconv.ParseInt` makes of the path parameter (0 when
it does not parse, the error being dropped), `user` is the `id` claim that the
authentication middleware stored under `"user"`, converted to `int64`. -/
structure Context (α : Type) where
  body : α
  bindErr : Option Error
  param : Int
  user : Int

/-- The interface `domain.TaskUsecase`, with the methods and the signatures of
the calls in `task.go`, over a state `σ` of the use-case layer. A call returns
its Go results and the next state. -/
structure TaskUsecase (σ : Type) where
  StoreTask : Task → σ → (Task × Option Error) × σ
  GetTaskByID : Int → σ → (Task × Option Error) × σ
  UpdateTask : Task → σ → (Task × Option Error) × σ
  DeleteTask : Int → σ → Option Error × σ

/-- The interface `domain.CategoryUsecase`, with the method `StoreCategory`
as `category.go` calls it. -/
structure CategoryUsecase (σ : Type) where
  StoreCategory : Category → σ → (Category × Option Error) × σ

/-- A use-case call made by a handler, with its argument. -/
inductive Call where
  | StoreCategory (category : Category)
  | StoreTask (task : Task)
  | GetTaskByID (id : Int)
  | UpdateTask (task : Task)
  | DeleteTask (id : Int)
  deriving DecidableEq, Repr

/-- The effects of one handler run. -/
structure Result (σ : Type) where
  state : σ
  calls : List Call
  responses : List Response

/-- The `data` object of a created task (`StoreTask`, lines 77-85). -/
def createdTaskData (taskData : Task) : List (String × Value) :=
  [("id", Value.int taskData.ID), ("title", Value.str taskData.Title),
   ("status", Value.bool taskData.Status),
   ("description", Value.str taskData.Description),
   ("user_id", Value.int taskData.UserID),
   ("category_id", Value.int taskData.CategoryID),
   ("created_at", Value.time taskData.CreatedAt)]

/-- The `data` object of an updated task (lines 130-138, 178-186, 225-233). -/
def updatedTaskData (taskData : Task) : List (String × Value) :=
  [("id", Value.int taskData.ID), ("title", Value.str taskData.Title),
   ("description", Value.str taskData.Description),
   ("status", Value.bool taskData.Status),
   ("user_id", Value.int taskData.UserID),
   ("category_id", Value.int taskData.CategoryID),
   ("updated_at", Value.time taskData.UpdatedAt)]

/-- The body `gin.H{"code": code, "data": gin.H{...}}`. -/
def envelope (code : Nat) (data : List (String × Value)) : List (String × JSON) :=
  [("code", JSON.val (Value.int code)), ("data", JSON.obj data)]

/-! ## Handlers -/

/-- The handler `CategoryHandler.StoreCategory` (category.go, lines 39-69). -/
def CategoryHandler.StoreCategory {σ : Type} (statusCode : Option Error → Nat)
    (c : CategoryUsecase σ) (ctx : Context StoreCategory) (s : σ) : Result σ :=
  let storeCategory := ctx.body
  match ctx.bindErr with
  | some err => ⟨s, [], [⟨400, message err⟩]⟩
  | none =>
    match helper.ValidateStruct storeCategory.required with
    | some err => ⟨s, [], [⟨400, message err⟩]⟩
    | none =>
      let category : Category := { Category.zero with Type_ := storeCategory.Type_ }
      let r := c.StoreCategory category s
      match r.1.2 with
      | some err => ⟨r.2, [Call.StoreCategory category], [⟨statusCode (some err), message err⟩]⟩
      | none =>
        ⟨r.2, [Call.StoreCategory category],
          [⟨201, envelope 201 [("id", Value.int r.1.1.ID), ("type", Value.str r.1.1.Type_),
            ("created_at", Value.time r.1.1.CreatedAt)]⟩]⟩

/-- The handler `TaskHandler.StoreTask` (task.go, lines 47-88). `copier.Copy`
comes after the two assignments and copies `Title`, `Description` and
`CategoryID`. -/
def TaskHandler.StoreTask {σ : Type} (statusCode : Option Error → Nat)
    (t : TaskUsecase σ) (ctx : Context StoreTask) (s : σ) : Result σ :=
  let storeTask := ctx.body
  match ctx.bindErr with
  | some err => ⟨s, [], [⟨400, message err⟩]⟩
  | none =>
    match helper.ValidateStruct storeTask.required with
    | some err => ⟨s, [], [⟨400, message err⟩]⟩
    | none =>
      let userID := ctx.user
      let task : Task := { Task.zero with UserID := userID }
      let task : Task := { task with Status := false }
      let task : Task := { task with Title := storeTask.Title,
                                     Description := storeTask.Description,
                                     CategoryID := storeTask.CategoryID }
      let r := t.StoreTask task s
      match r.1.2 with
      | some err => ⟨r.2, [Call.StoreTask task], [⟨statusCode (some err), message err⟩]⟩
      | none => ⟨r.2, [Call.StoreTask task], [⟨201, envelope 201 (createdTaskData r.1.1)⟩]⟩

/-- The handler `TaskHandler.UpdateTask` (task.go, lines 90-141). The
assignment `task.ID = taskId` is overwritten by the result of the load. The
error of `GetTaskByID` is not tested; it is the argument of `getStatusCode` when the
caller is not the owner of the task that was returned. -/
def TaskHandler.UpdateTask {σ : Type} (statusCode : Option Error → Nat)
    (t : TaskUsecase σ) (ctx : Context UpdateTask) (s : σ) : Result σ :=
  let updateTask := ctx.body
  match ctx.bindErr with
  | some err => ⟨s, [], [⟨400, message err⟩]⟩
  | none =>
    match helper.ValidateStruct updateTask.required with
    | some err => ⟨s, [], [⟨400, message err⟩]⟩
    | none =>
      let taskId := ctx.param
      let r := t.GetTaskByID taskId s
      let task := r.1.1
      let err := r.1.2
      let userID := ctx.user
      if task.UserID ≠ userID then
        ⟨r.2, [Call.GetTaskByID taskId], [⟨statusCode err, message Error.ErrUnauthorized⟩]⟩
      else
        let task : Task := { task with Title := updateTask.Title,
                                       Description := updateTask.Description }
        let u := t.UpdateTask task r.2
        match u.1.2 with
        | some err =>
          ⟨u.2, [Call.GetTaskByID taskId, Call.UpdateTask task],
            [⟨statusCode (some err), message err⟩]⟩
        | none =>
          ⟨u.2, [Call.GetTaskByID taskId, Call.UpdateTask task],
            [⟨200, envelope 200 (updatedTaskData u.1.1)⟩]⟩

/-- The handler `TaskHandler.UpdateStatusTask` (task.go, lines 143-189). Neither the error
of `GetTaskByID` nor the caller is looked at. -/
def TaskHandler.UpdateStatusTask {σ : Type} (statusCode : Option Error → Nat)
    (t : TaskUsecase σ) (ctx : Context UpdateStatusTask) (s : σ) : Result σ :=
  let updateStatusTask := ctx.body
  match ctx.bindErr with
  | some err => ⟨s, [], [⟨400, message err⟩]⟩
  | none =>
    match helper.ValidateStruct updateStatusTask.required with
    | some err => ⟨s, [], [⟨400, message err⟩]⟩
    | none =>
      let taskId := ctx.param
      let r := t.GetTaskByID taskId s
      let task := r.1.1
      let task : Task := { task with Status := updateStatusTask.Status }
      let u := t.UpdateTask task r.2
      match u.1.2 with
      | some err =>
        ⟨u.2, [Call.GetTaskByID taskId, Call.UpdateTask task],
          [⟨statusCode (some err), message err⟩]⟩
      | none =>
        ⟨u.2, [Call.GetTaskByID taskId, Call.UpdateTask task],
          [⟨200, envelope 200 (updatedTaskData u.1.1)⟩]⟩

/-- The response written by a failed check that is not followed by `return`
(`UpdateCategoryTask`, lines 199-201 and 205-207). -/
def badRequest : Option Error → List Response
  | some err => [⟨400, message err⟩]
  | none => []

/-- The handler `TaskHandler.UpdateCategoryTask` (task.go, lines 191-236). The two checks
of the payload write their 400 response and do not return, so the handler goes
on to the use case in every case. -/
def TaskHandler.UpdateCategoryTask {σ : Type} (statusCode : Option Error → Nat)
    (t : TaskUsecase σ) (ctx : Context UpdateCategoryTask) (s : σ) : Result σ :=
  let updateCategoryTask := ctx.body
  let out1 := badRequest ctx.bindErr
  let out2 := badRequest (helper.ValidateStruct updateCategoryTask.required)
  let taskId := ctx.param
  let r := t.GetTaskByID taskId s
  let task := r.1.1
  let task : Task := { task with CategoryID := updateCategoryTask.CategoryID }
  let u := t.UpdateTask task r.2
  match u.1.2 with
  | some err =>
    ⟨u.2, [Call.GetTaskByID taskId, Call.UpdateTask task],
      out1 ++ out2 ++ [⟨statusCode (some err), message err⟩]⟩
  | none =>
    ⟨u.2, [Call.GetTaskByID taskId, Call.UpdateTask task],
      out1 ++ out2 ++ [⟨200, envelope 200 (updatedTaskData u.1.1)⟩]⟩

/-- The handler `TaskHandler.DeleteTask` (task.go, lines 238-247). The request has no
payload; the caller is not looked at. -/
def TaskHandler.DeleteTask {σ : Type} (statusCode : Option Error → Nat)
    (t : TaskUsecase σ) (ctx : Context Unit) (s : σ) : Result σ :=
  let taskId := ctx.param
  let r := t.DeleteTask taskId s
  match r.1 with
  | some err => ⟨r.2, [Call.DeleteTask taskId], [⟨statusCode (some err), message err⟩]⟩
  | none =>
    ⟨r.2, [Call.DeleteTask taskId],
      [⟨200, [("message", JSON.val (Value.str "task has been successfully deleted"))]⟩]⟩

/-! ## An in-memory use case -/

/-- A store of tasks. -/
abbrev Store := List Task

/-- Reads the first stored task with the identifier; a zero task and
`ErrNotFound` when there is none. The store is left as it is. -/
def Store.GetTaskByID (id : Int) (s : Store) : (Task × Option Error) × Store :=
  match s.find? (fun x => x.ID == id) with
  | some task => ((task, none), s)
  | none => ((Task.zero, some Error.ErrNotFound), s)

/-- The store with every task that has the identifier of `task` replaced by
`task`. -/
def Store.write (task : Task) (s : Store) : Store :=
  s.map (fun x => if x.ID = task.ID then task else x)

/-- Writes the entity it is given over the stored tasks with its identifier
and returns it. -/
def Store.UpdateTask (task : Task) (s : Store) : (Task × Option Error) × Store :=
  ((task, none), Store.write task s)

/-- Appends the entity it is given and returns it. -/
def Store.StoreTask (task : Task) (s : Store) : (Task × Option Error) × Store :=
  ((task, none), s ++ [task])

/-- Removes the stored tasks with the identifier; `ErrNotFound` when there is
none. -/
def Store.DeleteTask (id : Int) (s : Store) : Option Error × Store :=
  if s.any (fun x => x.ID == id) then (none, s.filter (fun x => !(x.ID == id)))
  else (some Error.ErrNotFound, s)

/-- The use case over a `Store`: `UpdateTask` writes the entity it is given and
`GetTaskByID` reads it back. -/
def memoryUsecase : TaskUsecase Store :=
  { StoreTask := Store.StoreTask, GetTaskByID := Store.GetTaskByID,
    UpdateTask := Store.UpdateTask, DeleteTask := Store.DeleteTask }

/-- A stored task: identifier 7, owned by user 1, open. -/
def task7 : Task :=
  { ID := 7, Title := "Fix bug", Description := "desc", Status := false, UserID := 1,
    CategoryID := 1, CreatedAt := 100, UpdatedAt := 100 }

/-! ## Validation lemmas -/

theorem validate_storeCategory_none (d : StoreCategory) (h : d.Type_ ≠ "") :
    helper.ValidateStruct d.required = none := by
  simp [helper.ValidateStruct, StoreCategory.required, List.find?_cons, h]

theorem validate_storeTask_none (d : StoreTask) (h1 : d.Title ≠ "")
    (h2 : d.Description ≠ "") (h3 : d.CategoryID ≠ 0) :
    helper.ValidateStruct d.required = none := by
  simp [helper.ValidateStruct, StoreTask.required, List.find?_cons, h1, h2, h3]

theorem validate_storeTask_some (d : StoreTask)
    (h : d.Title = "" ∨ d.Description = "" ∨ d.CategoryID = 0) :
    ∃ err, helper.ValidateStruct d.required = some err := by
  by_cases h1 : d.Title = ""
  · exact ⟨Error.ValidationError "Title", by
      simp [helper.ValidateStruct, StoreTask.required, List.find?_cons, h1]⟩
  · by_cases h2 : d.Description = ""
    · exact ⟨Error.ValidationError "Description", by
        simp [helper.ValidateStruct, StoreTask.required, List.find?_cons, h1, h2]⟩
    · have h3 : d.CategoryID = 0 := by tauto
      exact ⟨Error.ValidationError "CategoryID", by
        simp [helper.ValidateStruct, StoreTask.required, List.find?_cons, h1, h2, h3]⟩

theorem validate_updateTask_none (d : UpdateTask) (h1 : d.Title ≠ "")
    (h2 : d.Description ≠ "") : helper.ValidateStruct d.required = none := by
  simp [helper.ValidateStruct, UpdateTask.required, List.find?_cons, h1, h2]

theorem validate_updateStatusTask_true (d : UpdateStatusTask) (h : d.Status = true) :
    helper.ValidateStruct d.required = none := by
  simp [helper.ValidateStruct, UpdateStatusTask.required, List.find?_cons, h]

theorem validate_updateStatusTask_false (d : UpdateStatusTask) (h : d.Status = false) :
    helper.ValidateStruct d.required = some (Error.ValidationError "Status") := by
  simp [helper.ValidateStruct, UpdateStatusTask.required, List.find?_cons, h]

theorem validate_updateCategoryTask_none (d : UpdateCategoryTask) (h : d.CategoryID ≠ 0) :
    helper.ValidateStruct d.required = none := by
  simp [helper.ValidateStruct, UpdateCategoryTask.required, List.find?_cons, h]

/-! ## Ownership check of the full update -/

/-- C1: a full task update with a valid payload by a caller whose id differs
from the `UserID` of the task returned by `GetTaskByID` makes that one use-case
call and no `UpdateTask` call, leaves the state as `GetTaskByID` left it, and
writes one response whose message is the text of `ErrUnauthorized`. -/
theorem UpdateTask_not_owner {σ : Type} (statusCode : Option Error → Nat)
    (t : TaskUsecase σ) (ctx : Context UpdateTask) (s : σ)
    (hbind : ctx.bindErr = none) (htitle : ctx.body.Title ≠ "")
    (hdesc : ctx.body.Description ≠ "")
    (howner : (t.GetTaskByID ctx.param s).1.1.UserID ≠ ctx.user) :
    (TaskHandler.UpdateTask statusCode t ctx s).calls = [Call.GetTaskByID ctx.param] ∧
    (∀ task, Call.UpdateTask task ∉ (TaskHandler.UpdateTask statusCode t ctx s).calls) ∧
    (TaskHandler.UpdateTask statusCode t ctx s).state = (t.GetTaskByID ctx.param s).2 ∧
    (TaskHandler.UpdateTask statusCode t ctx s).responses =
      [⟨statusCode (t.GetTaskByID ctx.param s).1.2, message Error.ErrUnauthorized⟩] := by
  have hv := validate_updateTask_none ctx.body htitle hdesc
  simp [TaskHandler.UpdateTask, hbind, hv, howner]

/-- C1 at a concrete input: user 2 sends a valid full update of task 7, which
user 1 owns. -/
theorem UpdateTask_not_owner_witness :
    (TaskHandler.UpdateTask (getStatusCode 200) memoryUsecase
        ⟨⟨"New title", "New text"⟩, none, 7, 2⟩ [task7]).calls = [Call.GetTaskByID 7] ∧
    (∀ task, Call.UpdateTask task ∉ (TaskHandler.UpdateTask (getStatusCode 200) memoryUsecase
        ⟨⟨"New title", "New text"⟩, none, 7, 2⟩ [task7]).calls) ∧
    (TaskHandler.UpdateTask (getStatusCode 200) memoryUsecase
        ⟨⟨"New title", "New text"⟩, none, 7, 2⟩ [task7]).state = [task7] ∧
    (TaskHandler.UpdateTask (getStatusCode 200) memoryUsecase
        ⟨⟨"New title", "New text"⟩, none, 7, 2⟩ [task7]).responses =
      [⟨200, message Error.ErrUnauthorized⟩] :=
  UpdateTask_not_owner (getStatusCode 200) memoryUsecase
    ⟨⟨"New title", "New text"⟩, none, 7, 2⟩ [task7] rfl (by decide) (by decide) (by decide)

/-! ## Validation gate of the create requests -/

/-- C3: a create request (category or task) whose payload was bound without
error and has a required field empty or zero is answered by one response with
status 400 whose message is the text of the error `ValidateStruct` returned;
the handler makes no use-case call and the state is the one it started in. -/
theorem Store_rejects_missing_field {σ τ : Type} (statusCode : Option Error → Nat)
    (c : CategoryUsecase σ) (t : TaskUsecase τ)
    (cctx : Context StoreCategory) (tctx : Context StoreTask) (s : σ) (s' : τ)
    (hcbind : cctx.bindErr = none) (hcmiss : cctx.body.Type_ = "")
    (htbind : tctx.bindErr = none)
    (htmiss : tctx.body.Title = "" ∨ tctx.body.Description = "" ∨ tctx.body.CategoryID = 0) :
    (∃ err, helper.ValidateStruct cctx.body.required = some err ∧
      (CategoryHandler.StoreCategory statusCode c cctx s).responses = [⟨400, message err⟩]) ∧
    (CategoryHandler.StoreCategory statusCode c cctx s).calls = [] ∧
    (CategoryHandler.StoreCategory statusCode c cctx s).state = s ∧
    (∃ err, helper.ValidateStruct tctx.body.required = some err ∧
      (TaskHandler.StoreTask statusCode t tctx s').responses = [⟨400, message err⟩]) ∧
    (TaskHandler.StoreTask statusCode t tctx s').calls = [] ∧
    (TaskHandler.StoreTask statusCode t tctx s').state = s' := by
  have hcv : helper.ValidateStruct cctx.body.required = some (Error.ValidationError "Type") := by
    simp [helper.ValidateStruct, StoreCategory.required, List.find?_cons, hcmiss]
  obtain ⟨terr, htv⟩ := validate_storeTask_some tctx.body htmiss
  refine ⟨⟨_, hcv, ?_⟩, ?_, ?_, ⟨terr, htv, ?_⟩, ?_, ?_⟩ <;>
    simp [CategoryHandler.StoreCategory, TaskHandler.StoreTask, hcbind, htbind, hcv, htv]

/-- C3 at a concrete input: a category without type and a task without
description. Each is answered 400 with the text of the validation error, no
use-case call is made and the store of tasks is as before. -/
theorem Store_rejects_missing_field_witness :
    (CategoryHandler.StoreCategory (getStatusCode 200)
        (⟨fun c s => ((c, none), s ++ [c])⟩ : CategoryUsecase (List Category))
        ⟨⟨""⟩, none, 0, 42⟩ []).responses = [⟨400, message (Error.ValidationError "Type")⟩] ∧
    (CategoryHandler.StoreCategory (getStatusCode 200)
        (⟨fun c s => ((c, none), s ++ [c])⟩ : CategoryUsecase (List Category))
        ⟨⟨""⟩, none, 0, 42⟩ []).calls = [] ∧
    (TaskHandler.StoreTask (getStatusCode 200) memoryUsecase
        ⟨⟨"Fix bug", "", 1⟩, none, 0, 42⟩ [task7]).responses =
      [⟨400, message (Error.ValidationError "Description")⟩] ∧
    (TaskHandler.StoreTask (getStatusCode 200) memoryUsecase
        ⟨⟨"Fix bug", "", 1⟩, none, 0, 42⟩ [task7]).calls = [] ∧
    (TaskHandler.StoreTask (getStatusCode 200) memoryUsecase
        ⟨⟨"Fix bug", "", 1⟩, none, 0, 42⟩ [task7]).state = [task7] := by
  obtain ⟨⟨e1, hv1, hr1⟩, hc1, _, ⟨e2, hv2, hr2⟩, hc2, hs2⟩ :=
    Store_rejects_missing_field (getStatusCode 200)
      (⟨fun c s => ((c, none), s ++ [c])⟩ : CategoryUsecase (List Category)) memoryUsecase
      ⟨⟨""⟩, none, 0, 42⟩ ⟨⟨"Fix bug", "", 1⟩, none, 0, 42⟩ [] [task7] rfl rfl rfl
      (Or.inr (Or.inl rfl))
  have he1 : e1 = Error.ValidationError "Type" :=
    Option.some.inj (hv1.symm.trans (by decide))
  have he2 : e2 = Error.ValidationError "Description" :=
    Option.some.inj (hv2.symm.trans (by decide))
  subst he1 he2
  exact ⟨hr1, hc1, hr2, hc2, hs2⟩

/-! ## Overlay of the payload on the loaded entity -/

/-- C5: with a valid payload and a load that returned `task` without error, the
entity handed to the use-case `UpdateTask` is `task` with the fields of the
payload replaced and every other field as loaded: `Title` and `Description`
for the full update (caller = owner), `Status` for the status update,
`CategoryID` for the category reassignment. In particular `ID`, `UserID`,
`CreatedAt` and `UpdatedAt` are the loaded ones. For each of the three
handlers the calls are the load and that one `UpdateTask`, the final state is
the state `UpdateTask` leaves when applied to that entity in the state the
load left, and the one response is built from what that application returned:
200 with the returned entity, or the code and the text of the returned
error. -/
theorem update_overlays_payload_fields {σ : Type} (statusCode : Option Error → Nat)
    (t : TaskUsecase σ) (s : σ) (id user : Int) (task : Task)
    (d : UpdateTask) (ds : UpdateStatusTask) (dc : UpdateCategoryTask)
    (hload : (t.GetTaskByID id s).1 = (task, none))
    (htitle : d.Title ≠ "") (hdesc : d.Description ≠ "")
    (hstatus : ds.Status = true) (hcat : dc.CategoryID ≠ 0) :
    ((TaskHandler.UpdateTask statusCode t ⟨d, none, id, task.UserID⟩ s).calls =
      [Call.GetTaskByID id,
       Call.UpdateTask ⟨task.ID, d.Title, d.Description, task.Status, task.UserID,
         task.CategoryID, task.CreatedAt, task.UpdatedAt⟩] ∧
     (TaskHandler.UpdateTask statusCode t ⟨d, none, id, task.UserID⟩ s).state =
      (t.UpdateTask ⟨task.ID, d.Title, d.Description, task.Status, task.UserID,
         task.CategoryID, task.CreatedAt, task.UpdatedAt⟩ (t.GetTaskByID id s).2).2 ∧
     (TaskHandler.UpdateTask statusCode t ⟨d, none, id, task.UserID⟩ s).responses =
      [match (t.UpdateTask ⟨task.ID, d.Title, d.Description, task.Status, task.UserID,
         task.CategoryID, task.CreatedAt, task.UpdatedAt⟩ (t.GetTaskByID id s).2).1 with
       | (_, some err) => ⟨statusCode (some err), message err⟩
       | (taskData, none) => ⟨200, envelope 200 (updatedTaskData taskData)⟩]) ∧
    ((TaskHandler.UpdateStatusTask statusCode t ⟨ds, none, id, user⟩ s).calls =
      [Call.GetTaskByID id,
       Call.UpdateTask ⟨task.ID, task.Title, task.Description, ds.Status, task.UserID,
         task.CategoryID, task.CreatedAt, task.UpdatedAt⟩] ∧
     (TaskHandler.UpdateStatusTask statusCode t ⟨ds, none, id, user⟩ s).state =
      (t.UpdateTask ⟨task.ID, task.Title, task.Description, ds.Status, task.UserID,
         task.CategoryID, task.CreatedAt, task.UpdatedAt⟩ (t.GetTaskByID id s).2).2 ∧
     (TaskHandler.UpdateStatusTask statusCode t ⟨ds, none, id, user⟩ s).responses =
      [match (t.UpdateTask ⟨task.ID, task.Title, task.Description, ds.Status, task.UserID,
         task.CategoryID, task.CreatedAt, task.UpdatedAt⟩ (t.GetTaskByID id s).2).1 with
       | (_, some err) => ⟨statusCode (some err), message err⟩
       | (taskData, none) => ⟨200, envelope 200 (updatedTaskData taskData)⟩]) ∧
    ((TaskHandler.UpdateCategoryTask statusCode t ⟨dc, none, id, user⟩ s).calls =
      [Call.GetTaskByID id,
       Call.UpdateTask ⟨task.ID, task.Title, task.Description, task.Status, task.UserID,
         dc.CategoryID, task.CreatedAt, task.UpdatedAt⟩] ∧
     (TaskHandler.UpdateCategoryTask statusCode t ⟨dc, none, id, user⟩ s).state =
      (t.UpdateTask ⟨task.ID, task.Title, task.Description, task.Status, task.UserID,
         dc.CategoryID, task.CreatedAt, task.UpdatedAt⟩ (t.GetTaskByID id s).2).2 ∧
     (TaskHandler.UpdateCategoryTask statusCode t ⟨dc, none, id, user⟩ s).responses =
      [match (t.UpdateTask ⟨task.ID, task.Title, task.Description, task.Status, task.UserID,
         dc.CategoryID, task.CreatedAt, task.UpdatedAt⟩ (t.GetTaskByID id s).2).1 with
       | (_, some err) => ⟨statusCode (some err), message err⟩
       | (taskData, none) => ⟨200, envelope 200 (updatedTaskData taskData)⟩]) := by
  have h1 : (t.GetTaskByID id s).1.1 = task := by rw [hload]
  have hv := validate_updateTask_none d htitle hdesc
  have hvs := validate_updateStatusTask_true ds hstatus
  have hvc := validate_updateCategoryTask_none dc hcat
  refine ⟨⟨?_, ?_, ?_⟩, ⟨?_, ?_, ?_⟩, ⟨?_, ?_, ?_⟩⟩
  · simp only [TaskHandler.UpdateTask, hv, h1, ne_eq, not_true_eq_false, if_false]
    split <;> rfl
  · simp only [TaskHandler.UpdateTask, hv, h1, ne_eq, not_true_eq_false, if_false]
    split <;> rfl
  · simp only [TaskHandler.UpdateTask, hv, h1, ne_eq, not_true_eq_false, if_false]
    rcases hu : t.UpdateTask ⟨task.ID, d.Title, d.Description, task.Status, task.UserID,
      task.CategoryID, task.CreatedAt, task.UpdatedAt⟩ (t.GetTaskByID id s).2
      with ⟨⟨taskData, err⟩, s2⟩
    cases err <;> rfl
  · simp only [TaskHandler.UpdateStatusTask, hvs, h1]
    split <;> rfl
  · simp only [TaskHandler.UpdateStatusTask, hvs, h1]
    split <;> rfl
  · simp only [TaskHandler.UpdateStatusTask, hvs, h1]
    rcases hu : t.UpdateTask ⟨task.ID, task.Title, task.Description, ds.Status, task.UserID,
      task.CategoryID, task.CreatedAt, task.UpdatedAt⟩ (t.GetTaskByID id s).2
      with ⟨⟨taskData, err⟩, s2⟩
    cases err <;> rfl
  · simp only [TaskHandler.UpdateCategoryTask, h1]
    split <;> rfl
  · simp only [TaskHandler.UpdateCategoryTask, h1]
    split <;> rfl
  · simp only [TaskHandler.UpdateCategoryTask, hvc, h1, badRequest, List.append_nil,
      List.nil_append]
    rcases hu : t.UpdateTask ⟨task.ID, task.Title, task.Description, task.Status, task.UserID,
      dc.CategoryID, task.CreatedAt, task.UpdatedAt⟩ (t.GetTaskByID id s).2
      with ⟨⟨taskData, err⟩, s2⟩
    cases err <;> rfl

/-- C5 at a concrete input: the owner (user 1) of the stored task 7 sends a
full update, a status update and a category reassignment. Each time the store
ends up holding the loaded task with only the fields of the payload replaced,
and the response is 200 with that entity. -/
theorem update_overlays_payload_fields_witness :
    ((TaskHandler.UpdateTask (getStatusCode 200) memoryUsecase
        ⟨⟨"New title", "New text"⟩, none, 7, 1⟩ [task7]).calls =
      [Call.GetTaskByID 7, Call.UpdateTask ⟨7, "New title", "New text", false, 1, 1, 100, 100⟩] ∧
     (TaskHandler.UpdateTask (getStatusCode 200) memoryUsecase
        ⟨⟨"New title", "New text"⟩, none, 7, 1⟩ [task7]).state =
      [⟨7, "New title", "New text", false, 1, 1, 100, 100⟩] ∧
     (TaskHandler.UpdateTask (getStatusCode 200) memoryUsecase
        ⟨⟨"New title", "New text"⟩, none, 7, 1⟩ [task7]).responses =
      [⟨200, envelope 200
        (updatedTaskData ⟨7, "New title", "New text", false, 1, 1, 100, 100⟩)⟩]) ∧
    ((TaskHandler.UpdateStatusTask (getStatusCode 200) memoryUsecase
        ⟨⟨true⟩, none, 7, 1⟩ [task7]).calls =
      [Call.GetTaskByID 7, Call.UpdateTask ⟨7, "Fix bug", "desc", true, 1, 1, 100, 100⟩] ∧
     (TaskHandler.UpdateStatusTask (getStatusCode 200) memoryUsecase
        ⟨⟨true⟩, none, 7, 1⟩ [task7]).state =
      [⟨7, "Fix bug", "desc", true, 1, 1, 100, 100⟩] ∧
     (TaskHandler.UpdateStatusTask (getStatusCode 200) memoryUsecase
        ⟨⟨true⟩, none, 7, 1⟩ [task7]).responses =
      [⟨200, envelope 200 (updatedTaskData ⟨7, "Fix bug", "desc", true, 1, 1, 100, 100⟩)⟩]) ∧
    ((TaskHandler.UpdateCategoryTask (getStatusCode 200) memoryUsecase
        ⟨⟨5⟩, none, 7, 1⟩ [task7]).calls =
      [Call.GetTaskByID 7, Call.UpdateTask ⟨7, "Fix bug", "desc", false, 1, 5, 100, 100⟩] ∧
     (TaskHandler.UpdateCategoryTask (getStatusCode 200) memoryUsecase
        ⟨⟨5⟩, none, 7, 1⟩ [task7]).state =
      [⟨7, "Fix bug", "desc", false, 1, 5, 100, 100⟩] ∧
     (TaskHandler.UpdateCategoryTask (getStatusCode 200) memoryUsecase
        ⟨⟨5⟩, none, 7, 1⟩ [task7]).responses =
      [⟨200, envelope 200 (updatedTaskData ⟨7, "Fix bug", "desc", false, 1, 5, 100, 100⟩)⟩]) :=
  update_overlays_payload_fields (getStatusCode 200) memoryUsecase [task7] 7 1 task7
    ⟨"New title", "New text"⟩ ⟨true⟩ ⟨5⟩ rfl (by decide) (by decide) rfl (by decide)

/-! ## Creation of a task -/

/-- C9: for a valid create-task payload sent by caller `ctx.user`, the one
use-case call is `StoreTask` with an entity whose `UserID` is the caller,
whose `Status` is false and whose `Title`, `Description` and `CategoryID` are
the payload's (all other fields zero); and when the use case returns, without
error, an entity that kept `UserID`, `Status` and `CategoryID`, the one
response is 201 with a body holding `user_id` = caller, `status` = false and
`category_id` = the payload's. -/
theorem StoreTask_valid {σ : Type} (statusCode : Option Error → Nat)
    (t : TaskUsecase σ) (ctx : Context StoreTask) (s : σ)
    (hbind : ctx.bindErr = none) (htitle : ctx.body.Title ≠ "")
    (hdesc : ctx.body.Description ≠ "") (hcat : ctx.body.CategoryID ≠ 0) :
    (TaskHandler.StoreTask statusCode t ctx s).calls =
      [Call.StoreTask ⟨0, ctx.body.Title, ctx.body.Description, false, ctx.user,
        ctx.body.CategoryID, 0, 0⟩] ∧
    ∀ taskData : Task,
      (t.StoreTask ⟨0, ctx.body.Title, ctx.body.Description, false, ctx.user,
        ctx.body.CategoryID, 0, 0⟩ s).1 = (taskData, none) →
      taskData.UserID = ctx.user → taskData.Status = false →
      taskData.CategoryID = ctx.body.CategoryID →
      (TaskHandler.StoreTask statusCode t ctx s).responses =
        [⟨201, envelope 201
          [("id", Value.int taskData.ID), ("title", Value.str taskData.Title),
           ("status", Value.bool false), ("description", Value.str taskData.Description),
           ("user_id", Value.int ctx.user), ("category_id", Value.int ctx.body.CategoryID),
           ("created_at", Value.time taskData.CreatedAt)]⟩] := by
  have hv := validate_storeTask_none ctx.body htitle hdesc hcat
  refine ⟨?_, ?_⟩
  · simp only [TaskHandler.StoreTask, hbind, hv, Task.zero]
    split <;> rfl
  · intro taskData hret hu hs hc
    simp only [TaskHandler.StoreTask, hbind, hv, Task.zero, hret, createdTaskData, hu, hs, hc]

/-- C9 at the scenario of the spec: title "Fix bug", description "desc",
category 1, user 42, over the in-memory use case. -/
theorem StoreTask_valid_witness :
    (TaskHandler.StoreTask (getStatusCode 200) memoryUsecase
        ⟨⟨"Fix bug", "desc", 1⟩, none, 0, 42⟩ []).calls =
      [Call.StoreTask ⟨0, "Fix bug", "desc", false, 42, 1, 0, 0⟩] ∧
    (TaskHandler.StoreTask (getStatusCode 200) memoryUsecase
        ⟨⟨"Fix bug", "desc", 1⟩, none, 0, 42⟩ []).responses =
      [⟨201, envelope 201
        [("id", Value.int 0), ("title", Value.str "Fix bug"),
         ("status", Value.bool false), ("description", Value.str "desc"),
         ("user_id", Value.int 42), ("category_id", Value.int 1),
         ("created_at", Value.time 0)]⟩] :=
  have h := StoreTask_valid (getStatusCode 200) memoryUsecase
    ⟨⟨"Fix bug", "desc", 1⟩, none, 0, 42⟩ [] rfl (by decide) (by decide) (by decide)
  ⟨h.1, h.2 ⟨0, "Fix bug", "desc", false, 42, 1, 0, 0⟩ rfl rfl rfl rfl⟩

/-! ## Handlers without the ownership check -/

/-- C2 (the code at a failing input): user 2 is not the owner of the stored
task 7 (user 1 is). The status update, the category reassignment and the
deletion sent by user 2 each reach the mutating use-case call, change the
store and are answered with 200; no response carries `ErrUnauthorized`. -/
theorem mutation_by_non_owner_goes_through :
    (TaskHandler.UpdateStatusTask (getStatusCode 200) memoryUsecase
        ⟨⟨true⟩, none, 7, 2⟩ [task7]).calls =
      [Call.GetTaskByID 7, Call.UpdateTask ⟨7, "Fix bug", "desc", true, 1, 1, 100, 100⟩] ∧
    (TaskHandler.UpdateStatusTask (getStatusCode 200) memoryUsecase
        ⟨⟨true⟩, none, 7, 2⟩ [task7]).state = [⟨7, "Fix bug", "desc", true, 1, 1, 100, 100⟩] ∧
    (TaskHandler.UpdateStatusTask (getStatusCode 200) memoryUsecase
        ⟨⟨true⟩, none, 7, 2⟩ [task7]).responses =
      [⟨200, envelope 200 (updatedTaskData ⟨7, "Fix bug", "desc", true, 1, 1, 100, 100⟩)⟩] ∧
    (TaskHandler.UpdateCategoryTask (getStatusCode 200) memoryUsecase
        ⟨⟨5⟩, none, 7, 2⟩ [task7]).calls =
      [Call.GetTaskByID 7, Call.UpdateTask ⟨7, "Fix bug", "desc", false, 1, 5, 100, 100⟩] ∧
    (TaskHandler.UpdateCategoryTask (getStatusCode 200) memoryUsecase
        ⟨⟨5⟩, none, 7, 2⟩ [task7]).state = [⟨7, "Fix bug", "desc", false, 1, 5, 100, 100⟩] ∧
    (TaskHandler.UpdateCategoryTask (getStatusCode 200) memoryUsecase
        ⟨⟨5⟩, none, 7, 2⟩ [task7]).responses =
      [⟨200, envelope 200 (updatedTaskData ⟨7, "Fix bug", "desc", false, 1, 5, 100, 100⟩)⟩] ∧
    (TaskHandler.DeleteTask (getStatusCode 200) memoryUsecase
        ⟨(), none, 7, 2⟩ [task7]).calls = [Call.DeleteTask 7] ∧
    (TaskHandler.DeleteTask (getStatusCode 200) memoryUsecase
        ⟨(), none, 7, 2⟩ [task7]).state = [] ∧
    (TaskHandler.DeleteTask (getStatusCode 200) memoryUsecase
        ⟨(), none, 7, 2⟩ [task7]).responses =
      [⟨200, [("message", JSON.val (Value.str "task has been successfully deleted"))]⟩] := by
  refine ⟨?_, ?_, ?_, ?_, ?_, ?_, ?_, ?_, ?_⟩ <;> decide

/-! ## Category reassignment: checks without `return` -/

/-- C4 (the code at a failing input): the owner of task 7 sends a category
reassignment whose `category_id` is zero. With the payload bound, the handler
writes the 400 response of the validation and then still calls `GetTaskByID`
and `UpdateTask`, stores category 0 and writes a second response, 200. When
the binding failed too, three responses are written. -/
theorem UpdateCategoryTask_goes_on_after_rejection :
    (TaskHandler.UpdateCategoryTask (getStatusCode 200) memoryUsecase
        ⟨⟨0⟩, none, 7, 1⟩ [task7]).calls =
      [Call.GetTaskByID 7, Call.UpdateTask ⟨7, "Fix bug", "desc", false, 1, 0, 100, 100⟩] ∧
    (TaskHandler.UpdateCategoryTask (getStatusCode 200) memoryUsecase
        ⟨⟨0⟩, none, 7, 1⟩ [task7]).state = [⟨7, "Fix bug", "desc", false, 1, 0, 100, 100⟩] ∧
    (TaskHandler.UpdateCategoryTask (getStatusCode 200) memoryUsecase
        ⟨⟨0⟩, none, 7, 1⟩ [task7]).responses =
      [⟨400, message (Error.ValidationError "CategoryID")⟩,
       ⟨200, envelope 200 (updatedTaskData ⟨7, "Fix bug", "desc", false, 1, 0, 100, 100⟩)⟩] ∧
    (TaskHandler.UpdateCategoryTask (getStatusCode 200) memoryUsecase
        ⟨⟨0⟩, some (Error.BindError "EOF"), 7, 1⟩ [task7]).calls =
      [Call.GetTaskByID 7, Call.UpdateTask ⟨7, "Fix bug", "desc", false, 1, 0, 100, 100⟩] ∧
    (TaskHandler.UpdateCategoryTask (getStatusCode 200) memoryUsecase
        ⟨⟨0⟩, some (Error.BindError "EOF"), 7, 1⟩ [task7]).responses =
      [⟨400, message (Error.BindError "EOF")⟩,
       ⟨400, message (Error.ValidationError "CategoryID")⟩,
       ⟨200, envelope 200 (updatedTaskData ⟨7, "Fix bug", "desc", false, 1, 0, 100, 100⟩)⟩] := by
  refine ⟨?_, ?_, ?_, ?_, ?_⟩ <;> decide

/-! ## The error of the load -/

/-- C6 (the code at a failing input): no task 99 is stored, so `GetTaskByID`
returns a zero task and `ErrNotFound`. The status update and the category
reassignment of task 99 hand the zero task, with the field of the payload set,
to `UpdateTask` and answer 200. The full update of task 99 by user 42 stops at
the ownership check: its message is the text of `ErrUnauthorized`, not of the
load error. -/
theorem update_goes_on_after_failed_load :
    (memoryUsecase.GetTaskByID 99 [task7]).1 = (Task.zero, some Error.ErrNotFound) ∧
    (TaskHandler.UpdateStatusTask (getStatusCode 200) memoryUsecase
        ⟨⟨true⟩, none, 99, 1⟩ [task7]).calls =
      [Call.GetTaskByID 99, Call.UpdateTask ⟨0, "", "", true, 0, 0, 0, 0⟩] ∧
    (TaskHandler.UpdateStatusTask (getStatusCode 200) memoryUsecase
        ⟨⟨true⟩, none, 99, 1⟩ [task7]).responses =
      [⟨200, envelope 200 (updatedTaskData ⟨0, "", "", true, 0, 0, 0, 0⟩)⟩] ∧
    (TaskHandler.UpdateCategoryTask (getStatusCode 200) memoryUsecase
        ⟨⟨5⟩, none, 99, 1⟩ [task7]).calls =
      [Call.GetTaskByID 99, Call.UpdateTask ⟨0, "", "", false, 0, 5, 0, 0⟩] ∧
    (TaskHandler.UpdateCategoryTask (getStatusCode 200) memoryUsecase
        ⟨⟨5⟩, none, 99, 1⟩ [task7]).responses =
      [⟨200, envelope 200 (updatedTaskData ⟨0, "", "", false, 0, 5, 0, 0⟩)⟩] ∧
    (TaskHandler.UpdateTask (getStatusCode 200) memoryUsecase
        ⟨⟨"New title", "New text"⟩, none, 99, 42⟩ [task7]).responses =
      [⟨404, message Error.ErrUnauthorized⟩] := by
  refine ⟨?_, ?_, ?_, ?_, ?_, ?_⟩ <;> decide

/-- C8 (the code at a failing input): a full update refused at the ownership
check is answered with the status code of the error of the load, not of
`ErrUnauthorized`. For task 99, which is not stored, the code is 404, the one
of `ErrNotFound`; for the stored task 7 and a caller who is not its owner the
load returned no error and the code is the one `getStatusCode` gives a nil
error. The mapping gives `ErrUnauthorized` 401. -/
theorem UpdateTask_refusal_takes_code_of_load (nilCode : Nat) :
    (TaskHandler.UpdateTask (getStatusCode nilCode) memoryUsecase
        ⟨⟨"New title", "New text"⟩, none, 99, 2⟩ [task7]).responses =
      [⟨404, message Error.ErrUnauthorized⟩] ∧
    (TaskHandler.UpdateTask (getStatusCode nilCode) memoryUsecase
        ⟨⟨"New title", "New text"⟩, none, 7, 2⟩ [task7]).responses =
      [⟨nilCode, message Error.ErrUnauthorized⟩] ∧
    getStatusCode nilCode (some Error.ErrUnauthorized) = 401 ∧
    getStatusCode nilCode (some Error.ErrNotFound) = 404 := by
  refine ⟨?_, ?_, rfl, rfl⟩ <;> rfl

/-! ## Transitions of `Status` -/

/-- C7 (the code at a failing input): the stored task 7 is done (`Status`
true) and its owner sends the status update `{status: false}`. The payload
binds, and the validation of the field `Status`, tagged `validate:"required"`,
fails on the zero value `false`: the handler answers 400 with the text of that
error, makes no use-case call, hands no entity with `Status` false to
`UpdateTask`, and the store still holds the task with `Status` true. The other
direction goes through: on the open task 7 the payload `{status: true}` is
accepted, the store ends up holding the task with `Status` true and the answer
is 200. -/
theorem UpdateStatusTask_false_is_rejected :
    helper.ValidateStruct (UpdateStatusTask.required ⟨false⟩) =
      some (Error.ValidationError "Status") ∧
    (TaskHandler.UpdateStatusTask (getStatusCode 200) memoryUsecase
        ⟨⟨false⟩, none, 7, 1⟩ [⟨7, "Fix bug", "desc", true, 1, 1, 100, 100⟩]).calls = [] ∧
    (¬ ∃ e : Task, e.Status = false ∧ Call.UpdateTask e ∈
      (TaskHandler.UpdateStatusTask (getStatusCode 200) memoryUsecase
        ⟨⟨false⟩, none, 7, 1⟩ [⟨7, "Fix bug", "desc", true, 1, 1, 100, 100⟩]).calls) ∧
    (TaskHandler.UpdateStatusTask (getStatusCode 200) memoryUsecase
        ⟨⟨false⟩, none, 7, 1⟩ [⟨7, "Fix bug", "desc", true, 1, 1, 100, 100⟩]).responses =
      [⟨400, message (Error.ValidationError "Status")⟩] ∧
    (TaskHandler.UpdateStatusTask (getStatusCode 200) memoryUsecase
        ⟨⟨false⟩, none, 7, 1⟩ [⟨7, "Fix bug", "desc", true, 1, 1, 100, 100⟩]).state =
      [⟨7, "Fix bug", "desc", true, 1, 1, 100, 100⟩] ∧
    (TaskHandler.UpdateStatusTask (getStatusCode 200) memoryUsecase
        ⟨⟨true⟩, none, 7, 1⟩ [⟨7, "Fix bug", "desc", false, 1, 1, 100, 100⟩]).state =
      [⟨7, "Fix bug", "desc", true, 1, 1, 100, 100⟩] ∧
    (TaskHandler.UpdateStatusTask (getStatusCode 200) memoryUsecase
        ⟨⟨true⟩, none, 7, 1⟩ [⟨7, "Fix bug", "desc", false, 1, 1, 100, 100⟩]).responses =
      [⟨200, envelope 200 (updatedTaskData ⟨7, "Fix bug", "desc", true, 1, 1, 100, 100⟩)⟩] := by
  have hcalls : (TaskHandler.UpdateStatusTask (getStatusCode 200) memoryUsecase
      ⟨⟨false⟩, none, 7, 1⟩ [⟨7, "Fix bug", "desc", true, 1, 1, 100, 100⟩]).calls = [] := by
    decide
  refine ⟨by decide, hcalls, ?_, by decide, by decide, by decide, by decide⟩
  rw [hcalls]
  simp

/-! ## Idempotence of the status update -/

/-- Looking a task up after a write: the write keeps every identifier, so the
task found is the image of the one found before. -/
theorem find_after_write (t : Task) (id : Int) (s : Store) :
    (Store.write t s).find? (fun x => x.ID == id) =
      (s.find? (fun x => x.ID == id)).map (fun x => if x.ID = t.ID then t else x) := by
  induction s with
  | nil => rfl
  | cons x xs ih =>
    unfold Store.write at ih ⊢
    by_cases h : x.ID = t.ID <;> by_cases h2 : x.ID = id
    · have h3 : t.ID = id := by rw [← h]; exact h2
      simp [List.find?_cons, h, h2, h3]
    · have h3 : ¬ t.ID = id := by rw [← h]; exact h2
      simp [List.find?_cons, h, h2, h3, ih]
    · subst h2
      simp [List.find?_cons, h]
    · simp [List.find?_cons, h, h2, ih]

/-- Writing the same entity twice is writing it once. -/
theorem write_write (t : Task) (s : Store) :
    Store.write t (Store.write t s) = Store.write t s := by
  unfold Store.write
  rw [List.map_map]
  apply List.map_congr_left
  intro x _
  by_cases h : x.ID = t.ID <;> simp [h]

/-- Reading does not change the store. -/
theorem GetTaskByID_state (id : Int) (s : Store) : (Store.GetTaskByID id s).2 = s := by
  unfold Store.GetTaskByID
  split <;> rfl

/-- After the task loaded for `id` was written back with `Status` true, the
task loaded for `id`, with `Status` true, is the one that was written. -/
theorem GetTaskByID_after_write (id : Int) (s : Store) :
    ({ (Store.GetTaskByID id
      (Store.write { (Store.GetTaskByID id s).1.1 with Status := true } s)).1.1
        with Status := true } : Task) =
    { (Store.GetTaskByID id s).1.1 with Status := true } := by
  cases hf : s.find? (fun x => x.ID == id) with
  | none =>
    have h1 : Store.GetTaskByID id s = ((Task.zero, some Error.ErrNotFound), s) := by
      simp [Store.GetTaskByID, hf]
    rw [h1]
    have h2 := find_after_write { Task.zero with Status := true } id s
    rw [hf] at h2
    simp only [Option.map_none] at h2
    simp [Store.GetTaskByID, h2]
  | some x =>
    have h1 : Store.GetTaskByID id s = ((x, none), s) := by
      simp [Store.GetTaskByID, hf]
    rw [h1]
    have h2 := find_after_write { x with Status := true } id s
    rw [hf] at h2
    simp only [Option.map_some, if_true] at h2
    simp [Store.GetTaskByID, h2]

/-- The state the status update leaves over the in-memory use case. -/
theorem UpdateStatusTask_memory_state (statusCode : Option Error → Nat)
    (ctx : Context UpdateStatusTask) (s : Store) :
    (TaskHandler.UpdateStatusTask statusCode memoryUsecase ctx s).state =
      if ctx.bindErr = none ∧ ctx.body.Status = true then
        Store.write { (Store.GetTaskByID ctx.param s).1.1 with Status := true } s
      else s := by
  cases hb : ctx.bindErr with
  | some e => simp [TaskHandler.UpdateStatusTask, hb]
  | none =>
    cases hs : ctx.body.Status with
    | false =>
      have hv := validate_updateStatusTask_false ctx.body hs
      simp [TaskHandler.UpdateStatusTask, hb, hv]
    | true =>
      have hv := validate_updateStatusTask_true ctx.body hs
      simp only [TaskHandler.UpdateStatusTask, hb, hv, hs, memoryUsecase, Store.UpdateTask,
        GetTaskByID_state]
      simp

/-- C10: over the in-memory use case (`UpdateTask` writes the entity it is
given, `GetTaskByID` reads it back), for every store, task identifier, caller
and status-update payload, handling the request a second time leaves the store
as the first handling left it. -/
theorem UpdateStatusTask_idempotent (statusCode : Option Error → Nat)
    (ctx : Context UpdateStatusTask) (s : Store) :
    (TaskHandler.UpdateStatusTask statusCode memoryUsecase ctx
      (TaskHandler.UpdateStatusTask statusCode memoryUsecase ctx s).state).state =
    (TaskHandler.UpdateStatusTask statusCode memoryUsecase ctx s).state := by
  rw [UpdateStatusTask_memory_state statusCode ctx
    (TaskHandler.UpdateStatusTask statusCode memoryUsecase ctx s).state,
    UpdateStatusTask_memory_state statusCode ctx s]
  by_cases hc : ctx.bindErr = none ∧ ctx.body.Status = true
  · simp only [hc, and_self, if_true]
    rw [GetTaskByID_after_write ctx.param s]
    exact write_write _ s
  · simp only [hc, if_false]

end Kanbanboard
